import Mathlib

/-!
Shallow embedding of the ReCoder transcoding tool (Python sources:
`taskcounter.py`, `transcoding.py`, `app.py`, `fshelper.py`,
`consoleutils.py`, `formatting.py`).

Numbers: Python floats are modelled as `Rat` (the program only adds,
subtracts, multiplies, divides and compares them); Python ints as
`Nat`/`Int`.  Wall-clock reads (`time.time()`) become explicit `now`
parameters.  Mutation becomes explicit state passing; a raised Python
exception becomes `Except.error` (or an `Option String` error component
where mutation before the raise must survive).  External effects
(`subprocess`, `os.path.exists`, `os.remove`) become oracles and explicit
filesystem-set arguments.
-/

namespace ReCoder

/-- Decidable equality for `Except`, used to evaluate the embedded
functions on concrete inputs. -/
instance {ε α : Type} [DecidableEq ε] [DecidableEq α] :
    DecidableEq (Except ε α) := fun a b =>
  match a, b with
  | Except.ok x, Except.ok y =>
    match decEq x y with
    | isTrue h => isTrue (by rw [h])
    | isFalse h => isFalse (by intro hh; cases hh; exact h rfl)
  | Except.error x, Except.error y =>
    match decEq x y with
    | isTrue h => isTrue (by rw [h])
    | isFalse h => isFalse (by intro hh; cases hh; exact h rfl)
  | Except.ok _, Except.error _ => isFalse (fun hh => Except.noConfusion hh)
  | Except.error _, Except.ok _ => isFalse (fun hh => Except.noConfusion hh)

/-! ### Python string/number helpers -/

/-- Python truncating `int(x)` on a float: truncation toward zero. -/
def pyIntTrunc (q : Rat) : Int :=
  if 0 ≤ q then q.floor else q.ceil

/-- Python `f"{n:02d}"`: zero-pad to width 2 (wider numbers unchanged). -/
def pad2 (n : Int) : String :=
  if 0 ≤ n ∧ n < 10 then "0" ++ toString n else toString n

/-- `format_time` from `formatting.py` / `taskcounter.py` (identical in both):
`divmod(int(seconds), 3600)` then `divmod(remainder, 60)`, rendered as
`HH:MM:SS`.  Python `divmod` on ints is floor division / floor modulus. -/
def format_time (seconds : Rat) : String :=
  let t := pyIntTrunc seconds
  let hours := t.fdiv 3600
  let remainder := t.fmod 3600
  let minutes := remainder.fdiv 60
  let secs := remainder.fmod 60
  pad2 hours ++ ":" ++ pad2 minutes ++ ":" ++ pad2 secs

/-- Round to nearest integer, ties to even (the rounding Python uses when
formatting; binary floating-point representation artifacts are not
modelled). -/
def roundHalfEven (x : Rat) : Int :=
  let f := x.floor
  let r := x - (f : Rat)
  if r < 1/2 then f
  else if 1/2 < r then f + 1
  else if f % 2 = 0 then f else f + 1

/-- Python `f"{x:.2f}"` fixed-point rendering with two decimals. -/
def fmtFixed2 (x : Rat) : String :=
  let n := roundHalfEven (x * 100)
  let m := n.natAbs
  let sign := if n < 0 then "-" else ""
  sign ++ toString (m / 100) ++ "." ++ pad2 ((m % 100 : Nat) : Int)

/-- Substring containment on char lists (Python `sub in s`). -/
def listHasSubseg (sub : List Char) : List Char → Bool
  | [] => sub.isEmpty
  | c :: rest => sub.isPrefixOf (c :: rest) || listHasSubseg sub rest

/-- Python `sub in s` for strings. -/
def strContains (s sub : String) : Bool :=
  listHasSubseg sub.toList s.toList

/-- Python `s.lower()` (ASCII case, which is all the sources use). -/
def pyLower (s : String) : String :=
  String.mk (s.toList.map Char.toLower)

/-- Auxiliary, fuel-based worker for `str.replace`: replaces non-overlapping
occurrences of `olds` left to right.  The fuel is the length of the
scanned list, which suffices because every recursive call consumes at
least one character (the empty-pattern case of Python, which inserts the
replacement everywhere, is not used by the repository and is returned
unchanged here). -/
def pyReplaceAux (olds news : List Char) : Nat → List Char → List Char
  | 0, s => s
  | Nat.succ fuel, s =>
    match s with
    | [] => []
    | c :: rest =>
      if olds ≠ [] ∧ olds.isPrefixOf (c :: rest) then
        news ++ pyReplaceAux olds news fuel ((c :: rest).drop olds.length)
      else
        c :: pyReplaceAux olds news fuel rest

/-- Python `path.replace(old, new)`: replaces EVERY occurrence of `old`. -/
def pyReplace (s olds news : String) : String :=
  String.mk (pyReplaceAux olds.toList news.toList s.toList.length s.toList)

/-- `os.path.split`: splits at the last slash; trailing slashes are dropped
from the head unless the head consists only of slashes. -/
def pySplit (p : String) : String × String :=
  let cs := p.toList
  let tail := (cs.reverse.takeWhile (fun c => c ≠ '/')).reverse
  let headRaw := cs.take (cs.length - tail.length)
  let head :=
    if headRaw ≠ [] ∧ ¬ headRaw.all (fun c => c = '/') then
      ((headRaw.reverse.dropWhile (fun c => c = '/')).reverse)
    else headRaw
  (String.mk head, String.mk tail)

/-- `os.path.splitext` on a basename (no slashes): splits at the last dot,
except that leading dots never start an extension. -/
def pySplitext (name : String) : String × String :=
  let cs := name.toList
  let lead := cs.takeWhile (fun c => c = '.')
  let rest := cs.drop lead.length
  let extTailRev := rest.reverse.takeWhile (fun c => c ≠ '.')
  if extTailRev.length = rest.length then (String.mk cs, "")
  else
    let ext := '.' :: extTailRev.reverse
    (String.mk (cs.take (cs.length - ext.length)), String.mk ext)

/-- `os.path.join dir name` for the shapes the repository produces
(relative second component unless absolute). -/
def pyJoin (dir name : String) : String :=
  if dir = "" then name
  else if name.toList.head? = some '/' then name
  else if dir.toList.getLast? = some '/' then dir ++ name
  else dir ++ "/" ++ name

/-! ### Task counter (`taskcounter.py`) -/

/-- The mutable fields of a `TaskCounter` (`taskcounter.py`, `__init__` +
`start`).  `subunits` is the constructor flag; `estimate_time` starts as
the integer 0 in Python but is only ever returned after having been set
to a string, so it is modelled as a string. -/
structure TCState where
  count : Nat
  subunits_count : Rat
  total : Nat
  subunits_total : Option Rat
  start_time : Rat
  last_report_time : Rat
  report_interval : Rat
  subunits : Bool
  estimated_on : Rat
  estimate_time : String
deriving DecidableEq

/-- `TaskCounter(interval, subunits)` followed by `start(total,
subunits_total)` at wall-clock time `now`. -/
def TaskCounter.start (interval : Rat) (subunitsFlag : Bool) (now : Rat)
    (total : Nat) (subunits_total : Option Rat) : TCState :=
  { count := 0
    subunits_count := 0
    total := total
    subunits_total := subunits_total
    start_time := now
    last_report_time := now
    report_interval := interval
    subunits := subunitsFlag
    estimated_on := 0
    estimate_time := "" }

/-- `TaskCounter.increment(self, subunits=None)` — note the parameter list:
there is no `units` parameter.  `self.count += 1` happens first; if the
subunit flag is set and no subunit value was supplied, an exception is
raised AFTER the count was already bumped, so the result carries the
mutated state together with an optional exception message. -/
def TaskCounter.increment (st : TCState) (subunitsArg : Option Rat) :
    TCState × Option String :=
  let st := { st with count := st.count + 1 }
  if st.subunits then
    match subunitsArg with
    | none => (st, some "Subunits are enabled, but no subunits were provided")
    | some s => ({ st with subunits_count := st.subunits_count + s }, none)
  else (st, none)

/-- The keyword parameters `TaskCounter.increment` accepts (besides `self`). -/
def incrementKeywordParams : List String := ["subunits"]

/-- A Python call `counter.increment(**kwargs)` with keyword arguments:
binding fails with a `TypeError` when a keyword does not name a formal
parameter; otherwise the body runs with `subunits` bound to the supplied
value (or its default `None`). -/
def callIncrementKwargs (st : TCState) (kwargs : List (String × Rat)) :
    Except String (TCState × Option String) :=
  if kwargs.all (fun kv => incrementKeywordParams.contains kv.1) then
    Except.ok (TaskCounter.increment st ((kwargs.lookup "subunits")))
  else
    Except.error "TypeError: increment got an unexpected keyword argument"

/-- `TaskCounter.progress`: `self.count / self.total`; Python raises
`ZeroDivisionError` when the total is 0. -/
def TaskCounter.progress (st : TCState) : Except String Rat :=
  if st.total = 0 then Except.error "ZeroDivisionError: division by zero"
  else Except.ok ((st.count : Rat) / (st.total : Rat))

/-- Source line 89 of `taskcounter.py`:
`total = self.subunits_total if not self.subunits else self.total` —
with the subunit flag SET this selects the UNIT total, with the flag
CLEAR the subunit total. -/
def time_report_total_sel (st : TCState) : Option Rat :=
  if ¬ st.subunits then st.subunits_total else some (st.total : Rat)

/-- Source line 90 of `taskcounter.py`:
`count = self.subunits_count if not self.subunits else self.count`. -/
def time_report_count_sel (st : TCState) : Rat :=
  if ¬ st.subunits then st.subunits_count else (st.count : Rat)

/-- `TaskCounter.time_report` at wall-clock time `now`.  Faithful to the
source, including the counter selection above.  The branch that subtracts
from a `None` total raises a `TypeError` in Python and is an
`Except.error` here. -/
def TaskCounter.time_report (st : TCState) (now : Rat) :
    Except String (String × TCState) :=
  let totalSel : Option Rat := time_report_total_sel st
  let countSel : Rat := time_report_count_sel st
  if countSel = 0 then Except.ok ("Estimating time...", st)
  else if countSel ≠ st.estimated_on then
    match totalSel with
    | none => Except.error "TypeError: unsupported operand types for subtraction"
    | some t =>
      let elapsed_time := now - st.start_time
      let average_time_per_task := elapsed_time / countSel
      let remaining_time := average_time_per_task * (t - countSel)
      let est := format_time remaining_time
      Except.ok (est, { st with estimate_time := est, estimated_on := countSel })
  else Except.ok (st.estimate_time, st)

/-- The ANSI block `report_progress` prints: each line prefixed by a
clear-line code and followed by a newline, then a cursor-up code per line
and a carriage return. -/
def ansiBlock (lines : List String) : String :=
  let builder := lines.foldl (fun b line => b ++ "\x1b[2K" ++ line ++ "\n") ""
  let rewind := lines.foldl (fun r _ => "\x1b[A" ++ r) "\r"
  builder ++ rewind

/-- `TaskCounter.report_progress(max_length, custom_strings)` at wall-clock
time `now`.  Returns `(none, st)` when rate-limited (no render, state
untouched); `(some printed, st')` when it renders, where `printed` is the
string handed to `print`.  The bar arithmetic and the display line follow
the source; exceptions raised inside (zero total in `progress`, `None`
total in `time_report`) become `Except.error` — note that
`last_report_time` was already advanced by then, matching the mutation
order of the source. -/
def TaskCounter.report_progress (st : TCState) (now : Rat) (max_length : Nat)
    (custom_strings : Option (List String)) :
    Except String (Option String × TCState) :=
  if now - st.last_report_time < st.report_interval then
    Except.ok (none, st)
  else
    let st := { st with last_report_time := now }
    let lines := match custom_strings with
      | some cs => cs
      | none => []
    match TaskCounter.progress st with
    | Except.error e => Except.error e
    | Except.ok p =>
      let value := min (max p 0) 1
      let num_hashes := (pyIntTrunc (value * (max_length : Rat))).toNat
      let bar := String.mk (List.replicate num_hashes '#' ++
        List.replicate (max_length - num_hashes) '.')
      match TaskCounter.time_report st now with
      | Except.error e => Except.error e
      | Except.ok (time_estimate, st2) =>
        let progress_display :=
          "[" ++ toString st.count ++ "/" ++ toString st.total ++ "] " ++ bar ++
          " " ++ fmtFixed2 (value * 100) ++ "% " ++ time_estimate ++ "\r"
        let lines := lines ++ [progress_display]
        Except.ok (some (ansiBlock lines), st2)

/-- Two successive `report_progress` calls (times `n1` then `n2`); counts
how many of them actually rendered.  A raised exception stops the
sequence, exactly as it would abort the Python caller. -/
def reportTwice (st : TCState) (n1 n2 : Rat) (cs : Option (List String)) : Nat :=
  match TaskCounter.report_progress st n1 50 cs with
  | Except.error _ => 0
  | Except.ok (r1, st1) =>
    (if r1.isSome then 1 else 0) +
    (match TaskCounter.report_progress st1 n2 50 cs with
     | Except.error _ => 0
     | Except.ok (r2, _) => if r2.isSome then 1 else 0)

/-! ### Media probe cache (`transcoding.py`, `VideoTranscoder`) -/

/-- One entry of the ffprobe JSON `streams` array, with the two numeric
fields already tokenised: `codec_name` is `None` when absent, `bit_rate`
is `None` when absent or falsy (the source then stores `None`), otherwise
the parsed integer. -/
structure FFStream where
  codec_type : String
  codec_name : Option String
  bit_rate : Option Int
deriving DecidableEq

/-- The ffprobe JSON document as consumed by `get_video_info`:
`duration_field = none` models a missing `format`/`duration` entry,
`some none` a present but unparseable duration string (Python
`float(...)` raises `ValueError`), `some (some d)` a duration parsing to
`d`. -/
structure FFProbeOutput where
  duration_field : Option (Option Rat)
  streams : List FFStream
deriving DecidableEq

/-- The cached per-path entry (`transcoding.py` lines 51-57).  The source
initialises `duration` to `None` but always overwrites it (0.0 on any
parse failure), so it is a plain `Rat` here. -/
structure MediaInfo where
  duration : Rat
  video_codec : Option String
  audio_codec : Option String
  video_bitrate : Option Int
  audio_bitrate : Option Int
deriving DecidableEq

/-- The freshly reset entry before parsing. -/
def emptyMediaInfo : MediaInfo :=
  { duration := 0, video_codec := none, audio_codec := none,
    video_bitrate := none, audio_bitrate := none }

/-- The stream-extraction loop of `get_video_info`: takes the first video
stream and the first audio stream, breaking once both were seen. -/
def scanStreams : List FFStream → Bool → Bool → MediaInfo → MediaInfo
  | [], _, _, entry => entry
  | s :: rest, has_video, has_audio, entry =>
    let pv : Bool × MediaInfo :=
      if !has_video && (s.codec_type == "video") then
        (true, { entry with video_codec := s.codec_name,
                            video_bitrate := s.bit_rate })
      else (has_video, entry)
    let pa : Bool × MediaInfo :=
      if !has_audio && (s.codec_type == "audio") then
        (true, { pv.2 with audio_codec := s.codec_name,
                           audio_bitrate := s.bit_rate })
      else (has_audio, pv.2)
    if pv.1 && pa.1 then pa.2 else scanStreams rest pv.1 pa.1 pa.2

/-- The pure parsing part of `get_video_info` (everything between the
`subprocess.run` and the cache insert): duration defaults to 0.0 when the
field is missing or malformed; streams are scanned for the first video
and first audio stream. -/
def parse_ffprobe_output (out : FFProbeOutput) : MediaInfo :=
  let duration : Rat :=
    match out.duration_field with
    | some (some d) => d
    | some none => 0
    | none => 0
  scanStreams out.streams false false { emptyMediaInfo with duration := duration }

/-- Lookup in the `db` dictionary (last insert wins, as inserts prepend). -/
def lookupDb (db : List (String × MediaInfo)) (p : String) : Option MediaInfo :=
  (db.find? (fun e => e.1 == p)).map (fun e => e.2)

/-- `get_video_info` as executed by a single caller with no interleaving:
check the cache, on a miss run the probe (`probeFn`), parse, insert.
Returns the entry, the new cache and the number of external probes this
call issued. -/
def get_video_info_seq (probeFn : String → FFProbeOutput)
    (db : List (String × MediaInfo)) (p : String) :
    MediaInfo × List (String × MediaInfo) × Nat :=
  match lookupDb db p with
  | some entry => (entry, db, 0)
  | none =>
    let entry := parse_ffprobe_output (probeFn p)
    (entry, (p, entry) :: db, 1)

/-! #### Interleaving model of concurrent `get_video_info` calls

The source holds `self.lock` for the cache check (lines 33-35) and,
separately, for the insert (lines 88-89); the ffprobe subprocess (lines
38-48) runs with the lock released.  Each locked region is therefore one
atomic step of this machine, and the probe is its own step that may
interleave with steps of other threads. -/

/-- Program counter of one thread inside `get_video_info`. -/
inductive GIPhase
  | checkDb
  | runProbe
  | insertDb
  | done
deriving DecidableEq

/-- One thread executing `get_video_info t.path`. -/
structure GIThread where
  phase : GIPhase
  path : String
  result : Option MediaInfo
deriving DecidableEq

/-- The shared cache plus the log of external probe invocations and the
thread pool. -/
structure GISystem where
  db : List (String × MediaInfo)
  probes : List String
  threads : List GIThread
deriving DecidableEq

/-- One atomic step of a single thread (see the phase-to-source mapping
above). -/
def giThreadStep (probeFn : String → FFProbeOutput)
    (db : List (String × MediaInfo)) (probes : List String) (t : GIThread) :
    List (String × MediaInfo) × List String × GIThread :=
  match t.phase with
  | GIPhase.checkDb =>
    match lookupDb db t.path with
    | some entry => (db, probes, { t with phase := GIPhase.done, result := some entry })
    | none => (db, probes, { t with phase := GIPhase.runProbe })
  | GIPhase.runProbe =>
    (db, probes ++ [t.path],
     { t with phase := GIPhase.insertDb,
              result := some (parse_ffprobe_output (probeFn t.path)) })
  | GIPhase.insertDb =>
    ((t.path, t.result.getD emptyMediaInfo) :: db, probes,
     { t with phase := GIPhase.done })
  | GIPhase.done => (db, probes, t)

/-- Schedule the thread with index `i` for one step. -/
def giSysStep (probeFn : String → FFProbeOutput) (s : GISystem) (i : Nat) :
    GISystem :=
  match s.threads[i]? with
  | none => s
  | some t =>
    let r := giThreadStep probeFn s.db s.probes t
    { db := r.1, probes := r.2.1, threads := s.threads.set i r.2.2 }

/-- Run a whole schedule (a list of thread indices). -/
def giRun (probeFn : String → FFProbeOutput) (sched : List Nat) (s : GISystem) :
    GISystem :=
  sched.foldl (giSysStep probeFn) s

/-! ### Duration validity and path derivation (`transcoding.py`) -/

/-- `math.isclose(a, b, rel_tol=0.01)` with the default `abs_tol=0.0`:
`abs(a-b) <= max(rel_tol * max(abs(a), abs(b)), abs_tol)`. -/
def mathIsclose (a b : Rat) : Bool :=
  decide (|a - b| ≤ max ((1/100) * max |a| |b|) 0)

/-- `check_transcoding_validity(file_path, av1_path)`: compares the two
probed durations with 1% relative tolerance and returns the validity flag
together with the original duration.  The probe cache is abstracted to an
`info` oracle (path to entry), since this function only reads entries. -/
def check_transcoding_validity (info : String → MediaInfo)
    (file_path av1_path : String) : Bool × Rat :=
  let duration := (info file_path).duration
  let av1_duration := (info av1_path).duration
  (mathIsclose duration av1_duration, duration)

/-- `VideoTranscoder.transcoded_movie_path`: same directory, same stem,
`_AV1` marker, `.mp4` container. -/
def transcoded_movie_path (file_path : String) : String :=
  let split := pySplit file_path
  let stem := (pySplitext split.2).1
  pyJoin split.1 (stem ++ "_AV1.mp4")

/-- `_is_audio_codec_supported_in_mp4` (the fixed supported set). -/
def supported_mp4_audio_codecs : List String := ["aac", "mp3", "ac3", "eac3"]

/-- `_is_audio_codec_supported_in_mp4(audio_codec)` — the source calls
`audio_codec.lower()`, so the argument must be an actual string. -/
def is_audio_codec_supported_in_mp4 (audio_codec : String) : Bool :=
  supported_mp4_audio_codecs.contains (pyLower audio_codec)

/-- The audio-codec compatibility check as invoked by
`run_ffmpeg_and_process_progress` on `info['audio_codec']`: when the
entry is `None` (no audio stream found), Python evaluates
`None.lower()` and raises `AttributeError`. -/
def audio_codec_check (audio_codec : Option String) : Except String Bool :=
  match audio_codec with
  | none => Except.error "AttributeError: NoneType object has no attribute lower"
  | some c => Except.ok (is_audio_codec_supported_in_mp4 c)

/-- The prefix of `run_ffmpeg_and_process_progress` that runs before
`subprocess.Popen`: the audio-codec check, and the insertion of the AAC
options before the output path (`cmd[:-1] + aac + cmd[-1:]`) when the
audio codec is unsupported.  A returned `Except.ok` carries the command
the encoder process is then launched with; `Except.error` means the
function raised before any process was started. -/
def run_ffmpeg_prelaunch (cmd : List String) (info : MediaInfo) :
    Except String (List String) :=
  match audio_codec_check info.audio_codec with
  | Except.error e => Except.error e
  | Except.ok supported =>
    if !supported then
      Except.ok (cmd.dropLast ++ ["-c:a", "aac"] ++ cmd.drop (cmd.length - 1))
    else
      Except.ok cmd

/-- The ffmpeg command `transcode_to_av1_svt` builds (fixed argument
template with the four encoder parameters). -/
def av1_svt_cmd (input_path output_path crf gop_size row_mt irefresh_type :
    String) : List String :=
  ["ffmpeg", "-i", input_path, "-c:v", "libsvtav1", "-crf", crf, "-b:v", "0",
   "-g", gop_size, "-c:a", "copy", "-row-mt", row_mt,
   "-svtav1-params", "irefresh-type=" ++ irefresh_type, output_path]

/-- The sequential batch loop of `transcode_movies` up to the launch of
each encoder: for every file, `transcode_to_av1_svt` first raises if the
deterministic output path already exists (`fs`), then reaches
`run_ffmpeg_and_process_progress`, whose pre-launch part may raise.  An
exception aborts the batch (the loop has no handler); the `ok` value
collects the launched commands. -/
def transcode_batch_prelaunch (info : String → MediaInfo) (fs : String → Bool) :
    List String → Except String (List (List String))
  | [] => Except.ok []
  | f :: rest =>
    let out := transcoded_movie_path f
    if fs out then
      Except.error "Output file already exists"
    else
      match run_ffmpeg_prelaunch (av1_svt_cmd f out "21" "30" "1" "2") (info f) with
      | Except.error e => Except.error e
      | Except.ok c =>
        match transcode_batch_prelaunch info fs rest with
        | Except.error e => Except.error e
        | Except.ok cs => Except.ok (c :: cs)

/-! ### Orchestrator (`app.py`) and file transfer (`fshelper.py`) -/

/-- A file entry as produced by `FSHelper.total_image` (`path`, lowercased
`ext`, `size`). -/
structure FileEntry where
  path : String
  ext : String
  size : Nat
deriving DecidableEq

/-- `App.IMAGE_EXTENSIONS`. -/
def IMAGE_EXTENSIONS : List String :=
  [".jpg", ".jpeg", ".png", ".tga", ".bmp", ".gif", ".tiff", ".tif"]

/-- `App.MOVIE_EXTENSIONS`. -/
def MOVIE_EXTENSIONS : List String :=
  [".mp4", ".mov", ".avi", ".mkv", ".wmv", ".flv", ".webm", ".mpg", ".mpeg",
   ".m4v", ".3gp", ".3g2"]

/-- The finished-format image extensions of `_move_single_split_file`. -/
def EFF_IMAGES : List String := [".avif", ".heic"]

/-- `App._video_codec_requires_transcoding`:
`codec != "av1" and codec != "hevc"`; a probe that found no video stream
hands in Python `None`, which compares unequal to both strings. -/
def video_codec_requires_transcoding (codec : Option String) : Bool :=
  (codec != some "av1") && (codec != some "hevc")

/-- `os.remove` on the existence predicate modelling the filesystem. -/
def pyRemove (fs : String → Bool) (p : String) : String → Bool :=
  fun q => if q == p then false else fs q

/-- `App._preprocess_movie_file(file, counter)` — the classification result
and the filesystem effect.  `fs` is the `os.path.exists` oracle, `info`
the probe cache read (`get_video_info`).  The `counter.increment()` /
`counter.report_progress(...)` calls at the top of the source function
only drive the progress display (see the `TaskCounter` embedding) and do
not influence the returned value or the filesystem, so they are not
threaded through here.  Returns the `(file?, duration?, reason)` triple
together with the filesystem after the possible `os.remove`. -/
def preprocess_movie_file (info : String → MediaInfo) (fs : String → Bool)
    (path : String) :
    (Option String × Option Rat × String) × (String → Bool) :=
  if strContains path "_AV1" then
    ((none, none, "already transcoded"), fs)
  else
    let recoded_path := transcoded_movie_path path
    let step : (String → Bool) × Option Rat :=
      if fs recoded_path then
        let vd := check_transcoding_validity info path recoded_path
        if !vd.1 then (pyRemove fs recoded_path, some vd.2)
        else (fs, some vd.2)
      else (fs, none)
    let fs := step.1
    let duration := step.2
    if fs recoded_path then
      ((none, duration, "transcoded version exists and is valid"), fs)
    else
      let codec := (info path).video_codec
      if video_codec_requires_transcoding codec then
        let duration := match duration with
          | none => some (info path).duration
          | some d => some d
        ((some path, duration, "OK"), fs)
      else
        ((none, none, "already AV1 or HEVC"), fs)

/-- The three destination buckets of `split_directory`. -/
inductive Bucket
  | sources
  | transcoded
  | unknown
deriving DecidableEq

/-- The bucket choice of `App._move_single_split_file`: finished-format
image extensions go to Transcoded, raw image extensions to Source, movie
extensions are probed (already-target-codec test of the video engine),
everything else is Unknown. -/
def classify_split_file (info : String → MediaInfo) (file : FileEntry) :
    Bucket :=
  let ext := pyLower file.ext
  if EFF_IMAGES.contains ext then Bucket.transcoded
  else if IMAGE_EXTENSIONS.contains ext then Bucket.sources
  else if MOVIE_EXTENSIONS.contains ext then
    let codec := (info file.path).video_codec
    if video_codec_requires_transcoding codec then Bucket.sources
    else Bucket.transcoded
  else Bucket.unknown

/-- One emitted transfer of the split operation: the file, its bucket, and
the flags `_move_single_split_file` passes to `FSHelper.transfer_file`
(`skip_existing=False, erase_original=False` — a copy, never a move). -/
structure SplitTransfer where
  file : FileEntry
  target : Bucket
  skip_existing : Bool
  erase_original : Bool
deriving DecidableEq

/-- The transfers `split_directory` performs over its file list (the
worker pool maps `_move_single_split_file` over every entry exactly
once). -/
def split_directory_plan (info : String → MediaInfo)
    (files : List FileEntry) : List SplitTransfer :=
  files.map (fun f =>
    { file := f
      target := classify_split_file info f
      skip_existing := false
      erase_original := false })

/-- The path computation of `FSHelper.transfer_file`: raise when the path
does not start with the old root, otherwise the destination path is
`path.replace(old_root, new_root)` — Python `str.replace`, which
substitutes every occurrence. -/
def transfer_file_new_path (path old_root new_root : String) :
    Except String String :=
  if old_root.toList.isPrefixOf path.toList then
    Except.ok (pyReplace path old_root new_root)
  else
    Except.error ("File " ++ path ++ " does not start with " ++ old_root)

/-- Modelled from the spec: the destination the spec describes for the
file-transfer collaborator — "the mirrored relative path under the new
root", i.e. the old path with the old-root PREFIX replaced by the new
root.  Stated separately so it can be compared with the path the source
actually computes. -/
def mirrored_path_spec (path old_root new_root : String) : String :=
  new_root ++ String.mk (path.toList.drop old_root.toList.length)

/-! ### Spec-side comparison models and concrete instances -/

/-- Modelled from the spec: the remaining-time estimate described in §4.1 —
`elapsed / completed * (total - completed)` over "whichever unit system
(unit or subunit) was configured with a total", i.e. the SUBUNIT counters
when the counter was configured with subunits enabled and the unit
counters otherwise; `none` when the driving count is 0 (the "estimating"
case) or no total was configured.  Stated only to compare with
`TaskCounter.time_report` as the source computes it. -/
def remaining_estimate_spec (st : TCState) (now : Rat) : Option String :=
  let driving : Rat × Option Rat :=
    if st.subunits then (st.subunits_count, st.subunits_total)
    else ((st.count : Rat), some (st.total : Rat))
  match driving.2 with
  | none => none
  | some t =>
    if driving.1 = 0 then none
    else some (format_time ((now - st.start_time) / driving.1 * (t - driving.1)))

/-- A counter with subunits enabled, started with 4 units / 100 subunit
seconds at time 0, after two increments of 5 subunit seconds each. -/
def tcSubunitsOn : TCState :=
  (TaskCounter.increment
    ((TaskCounter.increment (TaskCounter.start 1 true 0 4 (some 100))
      (some 5)).1) (some 5)).1

/-- A counter with subunits disabled, started with 4 units at time 0, after
two plain increments. -/
def tcSubunitsOff : TCState :=
  (TaskCounter.increment
    ((TaskCounter.increment (TaskCounter.start 1 false 0 4 none) none).1)
    none).1

/-- A freshly started counter (interval 1, total 10) for the rate-limiting
counterexample: its `last_report_time` is the start time 0. -/
def tcRateLimit : TCState := TaskCounter.start 1 false 0 10 none

/-- A started counter whose batch total is 0. -/
def tcZeroTotal : TCState := TaskCounter.start 1 false 0 0 none

/-- Probe oracle for the cache-race executions: every path probes to a
fixed document. -/
def probeFnC3 : String → FFProbeOutput :=
  fun _ => { duration_field := some (some 100), streams := [] }

/-- Two threads both calling `get_video_info "p"` on an empty cache. -/
def giInitSame : GISystem :=
  { db := [], probes := [],
    threads := [⟨GIPhase.checkDb, "p", none⟩, ⟨GIPhase.checkDb, "p", none⟩] }

/-- Two threads calling `get_video_info` on distinct paths. -/
def giInitDistinct : GISystem :=
  { db := [], probes := [],
    threads := [⟨GIPhase.checkDb, "p", none⟩, ⟨GIPhase.checkDb, "q", none⟩] }

/-- Probe oracle for the validity witness: path `a` has duration 100, any
other path 99 (exactly 1% relative difference). -/
def infoBoundary : String → MediaInfo :=
  fun s => if s == "a" then { emptyMediaInfo with duration := 100 }
           else { emptyMediaInfo with duration := 99 }

/-- Probe oracle for the preprocess witness: the candidate output has
duration 95, the source 100 (5% apart) with an h264 video stream. -/
def infoPreprocess : String → MediaInfo :=
  fun s =>
    if s == "d/movie_AV1.mp4" then
      { emptyMediaInfo with duration := 95 }
    else
      { emptyMediaInfo with
          duration := 100
          video_codec := some "h264"
          audio_codec := some "aac" }

/-- Existence oracle for the preprocess witness: the source file and its
candidate transcoded output both exist. -/
def fsC4 : String → Bool :=
  fun q => q == "d/movie.mp4" || q == "d/movie_AV1.mp4"

/-- A probed entry with no audio stream (`audio_codec = None`). -/
def infoNoAudio : MediaInfo :=
  { emptyMediaInfo with duration := 10, video_codec := some "h264" }

/-- Probe oracle for the split witness: every movie path probes to AV1. -/
def infoAv1 : String → MediaInfo :=
  fun _ =>
    { emptyMediaInfo with
        duration := 10
        video_codec := some "av1"
        audio_codec := some "aac" }

/-! ### Helper lemmas -/

/-- `time_report` never touches the reporting fields: a successful call
preserves `last_report_time` and `report_interval`. -/
theorem time_report_preserves_report_fields (st : TCState) (now : Rat)
    (s : String) (st' : TCState)
    (h : TaskCounter.time_report st now = Except.ok (s, st')) :
    st'.last_report_time = st.last_report_time ∧
    st'.report_interval = st.report_interval := by
  unfold TaskCounter.time_report at h
  dsimp only [] at h
  split at h
  · cases h; exact ⟨rfl, rfl⟩
  · split at h
    · split at h
      · cases h
      · cases h; exact ⟨rfl, rfl⟩
    · cases h; exact ⟨rfl, rfl⟩

/-- A `report_progress` call made before the interval elapsed since the
last render is a pure no-op. -/
theorem report_progress_recent_noop (st : TCState) (now : Rat) (ml : Nat)
    (cs : Option (List String))
    (h : now - st.last_report_time < st.report_interval) :
    TaskCounter.report_progress st now ml cs = Except.ok (none, st) := by
  unfold TaskCounter.report_progress
  rw [if_pos h]

/-- A `report_progress` call that actually rendered stamped the current
time into `last_report_time` and left `report_interval` unchanged. -/
theorem report_progress_rendered_state (st : TCState) (now : Rat) (ml : Nat)
    (cs : Option (List String)) (out : String) (st' : TCState)
    (h : TaskCounter.report_progress st now ml cs = Except.ok (some out, st')) :
    st'.last_report_time = now ∧ st'.report_interval = st.report_interval := by
  unfold TaskCounter.report_progress at h
  split at h
  · simp at h
  · dsimp only [] at h
    split at h
    · cases h
    · split at h
      · cases h
      · rename_i p heqp est st2 heqt
        cases h
        have hp := time_report_preserves_report_fields _ _ _ _ heqt
        exact ⟨hp.1, hp.2⟩

/-! ### Claim theorems -/

/-- The stream-extraction loop never sets `audio_codec` when no stream of
`codec_type = "audio"` occurs in the list. -/
theorem scanStreams_audio_none (l : List FFStream) (hv : Bool) (e : MediaInfo)
    (hl : ∀ s ∈ l, s.codec_type ≠ "audio")
    (he : e.audio_codec = none) :
    (scanStreams l hv false e).audio_codec = none := by
  induction l generalizing hv e with
  | nil => simpa [scanStreams] using he
  | cons s rest ih =>
    have hs : (s.codec_type == "audio") = false := by
      simpa using hl s (List.mem_cons_self s rest)
    have hrest : ∀ t ∈ rest, t.codec_type ≠ "audio" :=
      fun t ht => hl t (List.mem_cons_of_mem s ht)
    by_cases hv2 : (!hv && (s.codec_type == "video")) = true
    · have hstep : scanStreams (s :: rest) hv false e =
          scanStreams rest true false
            { e with video_codec := s.codec_name,
                     video_bitrate := s.bit_rate } := by
        conv_lhs => unfold scanStreams
        dsimp only []
        rw [hs, if_pos hv2]
        rfl
      rw [hstep]
      exact ih true _ hrest (by simpa using he)
    · have hstep : scanStreams (s :: rest) hv false e =
          scanStreams rest hv false e := by
        conv_lhs => unfold scanStreams
        dsimp only []
        rw [hs, if_neg hv2]
        show (if (hv && false) = true then e
              else scanStreams rest hv false e) = scanStreams rest hv false e
        rw [Bool.and_false]
        rw [if_neg (by decide : ¬ (false = true))]
      rw [hstep]
      exact ih hv e hrest he

/-- Claim C1: the spec says the engine's final per-file call
`increment(units=1, subunits=0)` adds exactly 1 to the completed-unit
count.  The code cannot do that: `TaskCounter.increment` has no `units`
parameter at all, so both keyword calls `run_ffmpeg_and_process_progress`
makes (`units=0, subunits=progress` on every progress line and
`units=1, subunits=0` after the process exits) raise a `TypeError`
instead of incrementing anything — evaluated here against the keyword
binding of the actual `increment` signature, for every counter state. -/
theorem claim_C1_increment_units_kwarg_raises (st : TCState) :
    callIncrementKwargs st [("units", 1), ("subunits", 0)] =
      Except.error "TypeError: increment got an unexpected keyword argument" ∧
    (∀ x : Rat, callIncrementKwargs st [("units", 0), ("subunits", x)] =
      Except.error "TypeError: increment got an unexpected keyword argument") := by
  exact ⟨rfl, fun x => rfl⟩

/-- Claim C2: the spec says the remaining-time estimate is driven by the
subunit counters when the counter was configured with subunits enabled,
and by the unit counters otherwise.  The code selects the OPPOSITE
branch (`total = self.subunits_total if not self.subunits else
self.total`): on a subunits-enabled counter (2 of 4 units done, 10 of 100
subunit seconds done, 10 s elapsed) the source computes the unit-driven
estimate 00:00:10 while the spec's subunit-driven estimate is 00:01:30;
and on a subunits-disabled counter the driving subunit count stays 0
forever, so the source renders "Estimating time..." although the spec's
unit-driven estimate exists. -/
theorem claim_C2_time_report_selector_inverted :
    (TaskCounter.time_report tcSubunitsOn 10).toOption.map Prod.fst =
      some "00:00:10" ∧
    remaining_estimate_spec tcSubunitsOn 10 = some "00:01:30" ∧
    (TaskCounter.time_report tcSubunitsOn 10).toOption.map Prod.fst ≠
      remaining_estimate_spec tcSubunitsOn 10 ∧
    (TaskCounter.time_report tcSubunitsOff 10).toOption.map Prod.fst =
      some "Estimating time..." ∧
    remaining_estimate_spec tcSubunitsOff 10 = some "00:00:10" := by
  refine ⟨by with_unfolding_all rfl, by with_unfolding_all rfl,
    ?_, by with_unfolding_all rfl, by with_unfolding_all rfl⟩
  with_unfolding_all decide

/-- Claim C8: the spec says the destination path is the source path with
the old-root PREFIX replaced by the new root ("mirrored relative path").
The code computes `path.replace(old_root, new_root)`, which substitutes
EVERY occurrence of the old root: for `/data/x/data/y.mp4` under old root
`/data` it produces `/out/x/out/y.mp4`, not the mirrored
`/out/x/data/y.mp4`, so the inner directory structure is not preserved. -/
theorem claim_C8_transfer_replaces_all_occurrences :
    transfer_file_new_path "/data/x/data/y.mp4" "/data" "/out" =
      Except.ok "/out/x/out/y.mp4" ∧
    mirrored_path_spec "/data/x/data/y.mp4" "/data" "/out" =
      "/out/x/data/y.mp4" ∧
    transfer_file_new_path "/data/x/data/y.mp4" "/data" "/out" ≠
      Except.ok (mirrored_path_spec "/data/x/data/y.mp4" "/data" "/out") := by
  refine ⟨by decide, by decide, by decide⟩

/-- Claim C9 counterexample: the claim says `progress()` returns 0 on a
zero total and does not fail; the code evaluates `self.count /
self.total` unguarded, which on a counter started with total 0 raises a
`ZeroDivisionError` — it does not return 0. -/
theorem claim_C9_counterexample_zero_total_raises :
    TaskCounter.progress tcZeroTotal =
      Except.error "ZeroDivisionError: division by zero" ∧
    TaskCounter.progress tcZeroTotal ≠ Except.ok 0 := by
  exact ⟨rfl, by decide⟩

/-- Claim C9, amended: `progress()` returns `completed_units /
total_units` when the total is nonzero, and raises a `ZeroDivisionError`
when the total is 0 (the caller must guard). -/
theorem claim_C9_progress_division (st : TCState) :
    (st.total = 0 → TaskCounter.progress st =
      Except.error "ZeroDivisionError: division by zero") ∧
    (st.total ≠ 0 → TaskCounter.progress st =
      Except.ok ((st.count : Rat) / (st.total : Rat))) := by
  unfold TaskCounter.progress
  constructor
  · intro h
    rw [if_pos h]
  · intro h
    rw [if_neg h]

/-- Witness for the amended C9 theorem at a counter started with total 4. -/
theorem claim_C9_witness :
    TaskCounter.progress (TaskCounter.start 1 false 0 4 none) =
      Except.ok (((TaskCounter.start 1 false 0 4 none).count : Rat) /
        ((TaskCounter.start 1 false 0 4 none).total : Rat)) ∧
    TaskCounter.progress tcZeroTotal =
      Except.error "ZeroDivisionError: division by zero" :=
  ⟨(claim_C9_progress_division (TaskCounter.start 1 false 0 4 none)).2
      (by decide),
   (claim_C9_progress_division tcZeroTotal).1 (by decide)⟩

/-- Claim C5: `check_transcoding_validity` returns `(is_valid,
original_duration)` where, for nonnegative probed durations not both
zero, validity holds exactly when the relative difference
`abs(d1-d2)/max(d1,d2)` is at most 1% — an exact-1% difference is valid,
anything larger invalid (the comparison is `math.isclose` with
`rel_tol=0.01`). -/
theorem claim_C5_duration_tolerance (info : String → MediaInfo) (p q : String)
    (h1 : 0 ≤ (info p).duration) (h2 : 0 ≤ (info q).duration)
    (h3 : 0 < max (info p).duration (info q).duration) :
    ((check_transcoding_validity info p q).1 = true ↔
      |(info p).duration - (info q).duration| /
        max (info p).duration (info q).duration ≤ 1/100) ∧
    (check_transcoding_validity info p q).2 = (info p).duration := by
  refine ⟨?_, rfl⟩
  unfold check_transcoding_validity mathIsclose
  dsimp only []
  rw [decide_eq_true_eq]
  rw [abs_of_nonneg h1, abs_of_nonneg h2]
  rw [max_eq_left (by positivity :
    (0:ℚ) ≤ 1/100 * max (info p).duration (info q).duration)]
  rw [div_le_iff₀ h3]

/-- Witness for C5 at the boundary: durations 100 and 99 differ by exactly
1% and are classified valid, durations 100 and 95 (5% apart) invalid. -/
theorem claim_C5_witness :
    (check_transcoding_validity infoBoundary "a" "b").1 = true ∧
    (check_transcoding_validity infoBoundary "a" "b").2 =
      (infoBoundary "a").duration ∧
    mathIsclose 100 95 = false := by
  have h := claim_C5_duration_tolerance infoBoundary "a" "b"
    (by decide) (by decide) (by decide)
  refine ⟨h.1.mpr ?_, h.2, by with_unfolding_all decide⟩
  with_unfolding_all decide

/-- Claim C10: a probed file with no audio stream has `audio_codec =
None`; for such a file `run_ffmpeg_and_process_progress` raises at the
audio-codec compatibility check (`None.lower()` is an `AttributeError`)
before the encoder process is launched, and because the sequential batch
loop of `transcode_movies` has no handler, the exception aborts the
whole batch (the file is neither encoded nor recorded in the failure
list, which is only appended to while reading encoder output). -/
theorem claim_C10_no_audio_raises_before_launch :
    (∀ (cmd : List String) (info : MediaInfo), info.audio_codec = none →
      run_ffmpeg_prelaunch cmd info =
        Except.error "AttributeError: NoneType object has no attribute lower") ∧
    (∀ out : FFProbeOutput, (∀ s ∈ out.streams, s.codec_type ≠ "audio") →
      (parse_ffprobe_output out).audio_codec = none) ∧
    (∀ (info : String → MediaInfo) (fs : String → Bool) (f : String)
        (rest : List String),
      (info f).audio_codec = none → fs (transcoded_movie_path f) = false →
      transcode_batch_prelaunch info fs (f :: rest) =
        Except.error "AttributeError: NoneType object has no attribute lower") := by
  have hpre : ∀ (cmd : List String) (info : MediaInfo),
      info.audio_codec = none →
      run_ffmpeg_prelaunch cmd info =
        Except.error "AttributeError: NoneType object has no attribute lower" := by
    intro cmd info h
    unfold run_ffmpeg_prelaunch audio_codec_check
    rw [h]
  refine ⟨hpre, ?_, ?_⟩
  · intro out hl
    unfold parse_ffprobe_output
    exact scanStreams_audio_none _ _ _ hl rfl
  · intro info fs f rest hinfo hfs
    unfold transcode_batch_prelaunch
    dsimp only []
    rw [hfs]
    rw [if_neg (by decide : ¬ (false = true))]
    rw [hpre _ _ hinfo]

/-- Witness for C10: a concrete h264 file with no audio stream makes the
pre-launch check raise and a one-file batch abort. -/
theorem claim_C10_witness :
    run_ffmpeg_prelaunch
        (av1_svt_cmd "d/a.mp4" (transcoded_movie_path "d/a.mp4") "21" "30" "1" "2")
        infoNoAudio =
      Except.error "AttributeError: NoneType object has no attribute lower" ∧
    (parse_ffprobe_output
        { duration_field := some (some 10),
          streams := [⟨"video", some "h264", none⟩] }).audio_codec = none ∧
    transcode_batch_prelaunch (fun _ => infoNoAudio) (fun _ => false)
        ["d/a.mp4"] =
      Except.error "AttributeError: NoneType object has no attribute lower" :=
  ⟨claim_C10_no_audio_raises_before_launch.1 _ infoNoAudio rfl,
   claim_C10_no_audio_raises_before_launch.2.1 _ (by decide),
   claim_C10_no_audio_raises_before_launch.2.2 _ _ "d/a.mp4" [] rfl rfl⟩

/-- Claim C3 counterexample: the claim says the check-cache / compute /
insert-cache sequence of `get_video_info` is a single critical section,
so at most one external probe is ever issued per path.  In the source the
lock is released between the cache check and the insert while the probe
subprocess runs, so in the interleaving model two concurrent callers of
the same path "p" can both miss the cache and both probe: the schedule
below runs both threads to completion and logs two probes for "p". -/
theorem claim_C3_counterexample_duplicate_probes :
    (giRun probeFnC3 [0, 1, 0, 1, 0, 1] giInitSame).probes = ["p", "p"] ∧
    ¬ ((giRun probeFnC3 [0, 1, 0, 1, 0, 1] giInitSame).probes.length ≤ 1) ∧
    (giRun probeFnC3 [0, 1, 0, 1, 0, 1] giInitSame).threads.all
      (fun t => t.phase == GIPhase.done) = true := by
  refine ⟨by decide, by decide, by decide⟩

/-- Claim C3, amended: the cache check and the insert are each atomic
under the lock, but the probe runs outside it, so "at most one probe per
path" holds only for calls that do not overlap: a second,
non-overlapping `get_video_info` for the same path always hits the cache
and issues no probe (first conjunct, and the fully sequential schedule of
the machine), while callers probing different paths interleave freely
and probe once each (last conjunct). -/
theorem claim_C3_per_path_probe_discipline :
    (∀ (pf : String → FFProbeOutput) (db : List (String × MediaInfo))
        (p : String),
      (get_video_info_seq pf (get_video_info_seq pf db p).2.1 p).2.2 = 0) ∧
    (giRun probeFnC3 [0, 0, 0, 1, 1, 1] giInitSame).probes = ["p"] ∧
    (giRun probeFnC3 [0, 1, 0, 1, 0, 1] giInitDistinct).probes =
      ["p", "q"] := by
  refine ⟨?_, by decide, by decide⟩
  intro pf db p
  cases h : lookupDb db p with
  | some e =>
    simp only [get_video_info_seq, h]
  | none =>
    simp only [get_video_info_seq, h]
    have hfind : lookupDb ((p, parse_ffprobe_output (pf p)) :: db) p =
        some (parse_ffprobe_output (pf p)) := by
      simp [lookupDb, List.find?]
    simp [hfind]

/-- Claim C4: for a file whose path does not carry the `_AV1` marker and
whose deterministic candidate output exists, `_preprocess_movie_file`
validates the candidate by duration comparison; when valid it skips with
zero encode jobs and an unchanged filesystem, when invalid it deletes
the candidate and reclassifies by codec probe, proposing exactly one
encode job (with the probed duration) when the codec is not a target
codec and none otherwise. -/
theorem claim_C4_preprocess_candidate_validation (info : String → MediaInfo)
    (fs : String → Bool) (path : String)
    (hmark : strContains path "_AV1" = false)
    (hexists : fs (transcoded_movie_path path) = true) :
    ((check_transcoding_validity info path (transcoded_movie_path path)).1 =
        true →
      preprocess_movie_file info fs path =
        ((none,
          some (check_transcoding_validity info path
            (transcoded_movie_path path)).2,
          "transcoded version exists and is valid"), fs)) ∧
    ((check_transcoding_validity info path (transcoded_movie_path path)).1 =
        false →
      (preprocess_movie_file info fs path).2 (transcoded_movie_path path) =
        false ∧
      (video_codec_requires_transcoding (info path).video_codec = true →
        (preprocess_movie_file info fs path).1 =
          (some path,
           some (check_transcoding_validity info path
             (transcoded_movie_path path)).2,
           "OK")) ∧
      (video_codec_requires_transcoding (info path).video_codec = false →
        (preprocess_movie_file info fs path).1 =
          (none, none, "already AV1 or HEVC"))) := by
  unfold preprocess_movie_file
  dsimp only []
  rw [hmark]
  rw [if_neg (by decide : ¬ (false = true))]
  rw [hexists]
  rw [if_pos rfl]
  constructor
  · intro hv
    rw [hv]
    rw [show (!true) = false from rfl]
    rw [if_neg (by decide : ¬ (false = true))]
    dsimp only []
    rw [hexists]
    rw [if_pos rfl]
  · intro hv
    rw [hv]
    rw [show (!false) = true from rfl]
    rw [if_pos rfl]
    dsimp only []
    have hrm : pyRemove fs (transcoded_movie_path path)
        (transcoded_movie_path path) = false := by
      simp [pyRemove]
    rw [hrm]
    rw [if_neg (by decide : ¬ (false = true))]
    refine ⟨?_, ?_, ?_⟩
    · by_cases hc : video_codec_requires_transcoding (info path).video_codec =
          true
      · rw [if_pos hc]
        exact hrm
      · rw [if_neg hc]
        exact hrm
    · intro hc
      rw [hc]
      rw [if_pos rfl]
    · intro hc
      rw [hc]
      rw [if_neg (by decide : ¬ (false = true))]

/-- Witness for C4: `d/movie.mp4` (duration 100, h264) with an existing
`d/movie_AV1.mp4` whose duration is 95 (5% apart, invalid): the
candidate is deleted and exactly one encode job for `d/movie.mp4` with
duration 100 is proposed. -/
theorem claim_C4_witness :
    (preprocess_movie_file infoPreprocess fsC4 "d/movie.mp4").2
        (transcoded_movie_path "d/movie.mp4") = false ∧
    (preprocess_movie_file infoPreprocess fsC4 "d/movie.mp4").1 =
      (some "d/movie.mp4",
       some (check_transcoding_validity infoPreprocess "d/movie.mp4"
         (transcoded_movie_path "d/movie.mp4")).2,
       "OK") ∧
    (check_transcoding_validity infoPreprocess "d/movie.mp4"
      (transcoded_movie_path "d/movie.mp4")).2 = 100 := by
  have h := (claim_C4_preprocess_candidate_validation infoPreprocess fsC4
    "d/movie.mp4" (by decide) (by decide)).2 (by with_unfolding_all decide)
  exact ⟨h.1, h.2.1 (by decide), by with_unfolding_all decide⟩

/-- Claim C6: the split classifier is total over the three buckets
(every file gets exactly one of Source / Transcoded / Unknown), with
finished-format image extensions mapped to Transcoded, raw image
extensions to Source, movie extensions to the codec-probe test (target
codec means Transcoded, otherwise Source) and everything else to
Unknown; the plan maps every input file to exactly one transfer (no file
dropped or duplicated) and every transfer is a copy, never a move
(`erase_original = false`). -/
theorem claim_C6_split_classification :
    (∀ (info : String → MediaInfo) (f : FileEntry),
      classify_split_file info f = Bucket.sources ∨
      classify_split_file info f = Bucket.transcoded ∨
      classify_split_file info f = Bucket.unknown) ∧
    (∀ (info : String → MediaInfo) (f : FileEntry), f.ext ∈ EFF_IMAGES →
      classify_split_file info f = Bucket.transcoded) ∧
    (∀ (info : String → MediaInfo) (f : FileEntry), f.ext ∈ IMAGE_EXTENSIONS →
      classify_split_file info f = Bucket.sources) ∧
    (∀ (info : String → MediaInfo) (f : FileEntry), f.ext ∈ MOVIE_EXTENSIONS →
      classify_split_file info f =
        if video_codec_requires_transcoding (info f.path).video_codec then
          Bucket.sources
        else Bucket.transcoded) ∧
    (∀ (info : String → MediaInfo) (f : FileEntry),
      pyLower f.ext ∉ EFF_IMAGES → pyLower f.ext ∉ IMAGE_EXTENSIONS →
      pyLower f.ext ∉ MOVIE_EXTENSIONS →
      classify_split_file info f = Bucket.unknown) ∧
    (∀ (info : String → MediaInfo) (files : List FileEntry),
      (split_directory_plan info files).map (fun t => t.file) = files) ∧
    (∀ (info : String → MediaInfo) (files : List FileEntry)
        (t : SplitTransfer), t ∈ split_directory_plan info files →
      t.skip_existing = false ∧ t.erase_original = false) := by
  refine ⟨?_, ?_, ?_, ?_, ?_, ?_, ?_⟩
  · intro info f
    unfold classify_split_file
    dsimp only []
    split
    · exact Or.inr (Or.inl rfl)
    · split
      · exact Or.inl rfl
      · split
        · split
          · exact Or.inl rfl
          · exact Or.inr (Or.inl rfl)
        · exact Or.inr (Or.inr rfl)
  · intro info f h
    simp only [EFF_IMAGES, List.mem_cons, List.not_mem_nil, or_false] at h
    unfold classify_split_file
    dsimp only []
    rcases h with h | h <;> rw [h] <;> rfl
  · intro info f h
    simp only [IMAGE_EXTENSIONS, List.mem_cons, List.not_mem_nil,
      or_false] at h
    unfold classify_split_file
    dsimp only []
    rcases h with h | h | h | h | h | h | h | h <;> rw [h] <;> rfl
  · intro info f h
    simp only [MOVIE_EXTENSIONS, List.mem_cons, List.not_mem_nil,
      or_false] at h
    unfold classify_split_file
    dsimp only []
    rcases h with h | h | h | h | h | h | h | h | h | h | h | h <;>
      rw [h] <;> rfl
  · intro info f h1 h2 h3
    unfold classify_split_file
    dsimp only []
    have c1 : EFF_IMAGES.contains (pyLower f.ext) = false := by
      cases hc : EFF_IMAGES.contains (pyLower f.ext)
      · rfl
      · exact absurd (by simpa using hc) h1
    have c2 : IMAGE_EXTENSIONS.contains (pyLower f.ext) = false := by
      cases hc : IMAGE_EXTENSIONS.contains (pyLower f.ext)
      · rfl
      · exact absurd (by simpa using hc) h2
    have c3 : MOVIE_EXTENSIONS.contains (pyLower f.ext) = false := by
      cases hc : MOVIE_EXTENSIONS.contains (pyLower f.ext)
      · rfl
      · exact absurd (by simpa using hc) h3
    rw [c1, c2, c3]
    rfl
  · intro info files
    simp only [split_directory_plan, List.map_map]
    have hcomp : ((fun t : SplitTransfer => t.file) ∘ fun f =>
        ({ file := f, target := classify_split_file info f,
           skip_existing := false,
           erase_original := false } : SplitTransfer)) = fun f => f := rfl
    rw [hcomp]
    exact List.map_id' files
  · intro info files t ht
    simp only [split_directory_plan, List.mem_map] at ht
    obtain ⟨f, _, rfl⟩ := ht
    exact ⟨rfl, rfl⟩

/-- Witness for C6, mirroring spec scenario 5: one `.heic`, one `.jpg`,
one already-AV1 `.mp4` and one `.xyz` land in Transcoded, Source,
Transcoded and Unknown respectively. -/
theorem claim_C6_witness :
    classify_split_file infoAv1 ⟨"s/a.heic", ".heic", 1⟩ = Bucket.transcoded ∧
    classify_split_file infoAv1 ⟨"s/b.jpg", ".jpg", 1⟩ = Bucket.sources ∧
    classify_split_file infoAv1 ⟨"s/c.mp4", ".mp4", 1⟩ = Bucket.transcoded ∧
    classify_split_file infoAv1 ⟨"s/d.xyz", ".xyz", 1⟩ = Bucket.unknown := by
  refine ⟨claim_C6_split_classification.2.1 infoAv1 _ (by decide),
    claim_C6_split_classification.2.2.1 infoAv1 _ (by decide), ?_,
    claim_C6_split_classification.2.2.2.2.1 infoAv1 _ (by decide) (by decide)
      (by decide)⟩
  have h := claim_C6_split_classification.2.2.2.1 infoAv1
    ⟨"s/c.mp4", ".mp4", 1⟩ (by decide)
  rw [h]
  decide

/-- Claim C7 counterexample: the claim says two `report_progress` calls
within less than the interval render exactly once; but when both calls
also fall within the interval of the LAST actual render (here: the batch
start), neither renders — two calls at 0.5 s and 0.75 s on a counter
started at 0 with interval 1 render zero times, not once. -/
theorem claim_C7_counterexample_two_calls_no_render :
    reportTwice tcRateLimit (1/2) (3/4) none = 0 ∧
    reportTwice tcRateLimit (1/2) (3/4) none ≠ 1 := by
  refine ⟨by with_unfolding_all decide, by with_unfolding_all decide⟩

/-- Claim C7, amended: `report_progress` renders nothing and changes no
state when less than `report_interval` has elapsed since the last actual
render, and consequently two calls less than `report_interval` apart
render AT MOST once (exactly once only if the first call itself was due). -/
theorem claim_C7_rate_limited :
    (∀ (st : TCState) (now : Rat) (ml : Nat) (cs : Option (List String)),
      now - st.last_report_time < st.report_interval →
      TaskCounter.report_progress st now ml cs = Except.ok (none, st)) ∧
    (∀ (st : TCState) (n1 n2 : Rat) (cs : Option (List String)),
      n2 - n1 < st.report_interval → reportTwice st n1 n2 cs ≤ 1) := by
  refine ⟨report_progress_recent_noop, ?_⟩
  intro st n1 n2 cs h
  unfold reportTwice
  cases h1 : TaskCounter.report_progress st n1 50 cs with
  | error e => simp
  | ok pair =>
    obtain ⟨r1, st1⟩ := pair
    cases r1 with
    | none =>
      cases h2 : TaskCounter.report_progress st1 n2 50 cs with
      | error e => simp [h2]
      | ok pair2 =>
        obtain ⟨r2, st2⟩ := pair2
        cases r2 <;> simp [h2]
    | some out =>
      have hp := report_progress_rendered_state st n1 50 cs out st1 h1
      have h2 : TaskCounter.report_progress st1 n2 50 cs =
          Except.ok (none, st1) := by
        apply report_progress_recent_noop
        rw [hp.1, hp.2]
        exact h
      simp [h2]

/-- Witness for the amended C7 theorem on a freshly started counter. -/
theorem claim_C7_witness :
    TaskCounter.report_progress tcRateLimit (1/2) 50 none =
      Except.ok (none, tcRateLimit) ∧
    reportTwice tcRateLimit (1/2) (3/4) none ≤ 1 :=
  ⟨claim_C7_rate_limited.1 tcRateLimit (1/2) 50 none
      (by with_unfolding_all decide),
   claim_C7_rate_limited.2 tcRateLimit (1/2) (3/4) none
      (by with_unfolding_all decide)⟩

end ReCoder
